import Mathlib

/-!
Shallow embedding of the StatCan namespace-controller (Go) for verification.

The embedding covers:
* the label-propagation synchronizer of `cmd/finance.go` (`syncFinance`);
* the network-isolation synthesizer `generateNetworkPolicies` and the
  converge loop of `cmd/network.go` (`converge`, `networkSync`).

Go maps of labels are modelled as association lists with first-match lookup;
a missing key reads as the empty string, as Go map indexing does.  Calls made
against the cluster API are reified as explicit call lists; `klog` warnings
are reified as `Warn` values.  The functions `parseBool`, `parseIP`, `to4`
and `ipString` model the Go standard-library functions `strconv.ParseBool`,
`net.ParseIP`, `IP.To4` and `IP.String` used by the source; string parsing
is done over `List Char` so that every definition evaluates by kernel
reduction.
-/

/-- Label maps, modelled as association lists (Go `map[string]string`). -/
abbrev Labels := List (String × String)

/-- First-match lookup in a label map. -/
def lookupL : Labels → String → Option String
  | [], _ => none
  | (k', v) :: rest, k => if k' = k then some v else lookupL rest k

/-- Go `_, ok := m[k]` presence test. -/
def hasKey (m : Labels) (k : String) : Bool :=
  (lookupL m k).isSome

/-- Go `m[k]` read: missing keys read as the empty string. -/
def getVal (m : Labels) (k : String) : String :=
  (lookupL m k).getD ""

/-- Go `m[k] = v` map write: replace the binding, appending when absent. -/
def setVal : Labels → String → String → Labels
  | [], k, v => [(k, v)]
  | (k', v') :: rest, k, v =>
    if k' = k then (k, v) :: rest else (k', v') :: setVal rest k v

/-- Model of Go `strconv.ParseBool`: the exact accepted strings. -/
def parseBool : String → Option Bool
  | "1" => some true
  | "t" => some true
  | "T" => some true
  | "true" => some true
  | "TRUE" => some true
  | "True" => some true
  | "0" => some false
  | "f" => some false
  | "F" => some false
  | "false" => some false
  | "FALSE" => some false
  | "False" => some false
  | _ => none

/-- Split a character list at every occurrence of a separator character. -/
def splitOnCharAux (c : Char) : List Char → List Char → List (List Char)
  | [], acc => [acc.reverse]
  | x :: rest, acc =>
    if x == c then acc.reverse :: splitOnCharAux c rest []
    else splitOnCharAux c rest (x :: acc)

/-- Fields of a character list separated by `c` (like Go `strings.Split`). -/
def splitOnChar (c : Char) (s : List Char) : List (List Char) :=
  splitOnCharAux c s []

/-- Split at every occurrence of the two-character separator `::`,
left-to-right and non-overlapping. -/
def splitDoubleColonAux : List Char → List Char → List (List Char)
  | [], acc => [acc.reverse]
  | ':' :: ':' :: rest, acc => acc.reverse :: splitDoubleColonAux rest []
  | x :: rest, acc => splitDoubleColonAux rest (x :: acc)

/-- Fields separated by `::`. -/
def splitDoubleColon (s : List Char) : List (List Char) :=
  splitDoubleColonAux s []

/-- Decimal digit test. -/
def isDecDigit (c : Char) : Bool :=
  '0' ≤ c && c ≤ '9'

/-- Hexadecimal digit test (both cases), as used by Go's IPv6 parser. -/
def isHexDigitCh (c : Char) : Bool :=
  isDecDigit c || ('a' ≤ c && c ≤ 'f') || ('A' ≤ c && c ≤ 'F')

/-- Value of a hexadecimal (or decimal) digit. -/
def hexDigitVal (c : Char) : Nat :=
  if isDecDigit c then c.toNat - '0'.toNat
  else if 'a' ≤ c && c ≤ 'f' then c.toNat - 'a'.toNat + 10
  else c.toNat - 'A'.toNat + 10

/-- An IPv6 group: one to four hex digits. -/
def isHexGroup (g : List Char) : Bool :=
  decide (0 < g.length) && decide (g.length ≤ 4) && g.all isHexDigitCh

/-- Numeric value of a hex group. -/
def hexGroupVal (g : List Char) : Nat :=
  g.foldl (fun acc c => acc * 16 + hexDigitVal c) 0

/-- Numeric value of a decimal field. -/
def decFieldVal (g : List Char) : Nat :=
  g.foldl (fun acc c => acc * 10 + hexDigitVal c) 0

/-- One dotted-quad field: decimal digits with value at most 255 (Go's
`dtoi` accepts leading zeros). -/
def parseIPv4Field (g : List Char) : Option Nat :=
  if decide (0 < g.length) && g.all isDecDigit && decide (decFieldVal g ≤ 255) then
    some (decFieldVal g)
  else none

/-- Model of Go's dotted-quad parser, yielding the raw 4 bytes. -/
def parseIPv4Raw (s : List Char) : Option (List Nat) :=
  match splitOnChar '.' s with
  | [a, b, c, d] =>
    match parseIPv4Field a, parseIPv4Field b, parseIPv4Field c, parseIPv4Field d with
    | some x, some y, some z, some w => some [x, y, z, w]
    | _, _, _, _ => none
  | _ => none

/-- The IPv4-in-IPv6 prefix Go uses for 16-byte IPv4 addresses. -/
def v4InV6Prefix : List Nat := [0, 0, 0, 0, 0, 0, 0, 0, 0, 0, 255, 255]

/-- Go `net.ParseIP` on a dotted quad returns the 16-byte mapped form. -/
def parseIPv4 (s : List Char) : Option (List Nat) :=
  (parseIPv4Raw s).map (fun bs => v4InV6Prefix ++ bs)

/-- Parse colon-separated IPv6 groups into bytes; only the final group may
be a trailing dotted-quad (contributing its 4 raw bytes), as in Go. -/
def parseHexGroups : List (List Char) → Option (List Nat)
  | [] => some []
  | [g] =>
    if g.any (fun c => c == '.') then parseIPv4Raw g
    else if isHexGroup g then some [hexGroupVal g / 256, hexGroupVal g % 256] else none
  | g :: rest =>
    if isHexGroup g then
      (parseHexGroups rest).map (fun bs => hexGroupVal g / 256 :: hexGroupVal g % 256 :: bs)
    else none

/-- Like `parseHexGroups` but without the trailing dotted-quad case: an
embedded IPv4 part is only legal at the very end of the address. -/
def parseHexGroupsNoV4 : List (List Char) → Option (List Nat)
  | [] => some []
  | g :: rest =>
    if isHexGroup g then
      (parseHexGroupsNoV4 rest).map (fun bs => hexGroupVal g / 256 :: hexGroupVal g % 256 :: bs)
    else none

/-- Model of Go's IPv6 parser: at most one `::`, eight groups total without
it, at most seven with it (the ellipsis must expand to at least one group). -/
def parseIPv6 (s : List Char) : Option (List Nat) :=
  match splitDoubleColon s with
  | [whole] =>
    match parseHexGroups (splitOnChar ':' whole) with
    | some bs => if bs.length = 16 then some bs else none
    | none => none
  | [l, r] =>
    let lgs := if l.isEmpty then [] else splitOnChar ':' l
    let rgs := if r.isEmpty then [] else splitOnChar ':' r
    match parseHexGroupsNoV4 lgs, parseHexGroups rgs with
    | some lb, some rb =>
      if lb.length + rb.length ≤ 14 then
        some (lb ++ List.replicate (16 - lb.length - rb.length) 0 ++ rb)
      else none
    | _, _ => none
  | _ => none

/-- Model of Go `net.ParseIP`: dispatch on whichever of `.` or `:` occurs
first, exactly as the Go loop does. -/
def parseIP (s : String) : Option (List Nat) :=
  match (s.toList).find? (fun c => c == '.' || c == ':') with
  | some '.' => parseIPv4 s.toList
  | some ':' => parseIPv6 s.toList
  | _ => none

/-- Model of Go `IP.To4`: a 4-byte address, or the 4 low bytes of a
16-byte IPv4-mapped address. -/
def to4 (ip : List Nat) : Option (List Nat) :=
  if ip.length = 4 then some ip
  else if ip.length = 16 ∧ (ip.take 10).all (fun b => b == 0)
      ∧ ip.getD 10 0 = 255 ∧ ip.getD 11 0 = 255 then
    some (ip.drop 12)
  else none

/-- The netmask the source picks: 32 when `To4` succeeds, 128 for other
16-byte addresses, none otherwise (the source then skips the address). -/
def ipNetmask (ip : List Nat) : Option Nat :=
  if (to4 ip).isSome then some 32
  else if ip.length = 16 then some 128
  else none

/-- Digit character for decimal and hexadecimal rendering: `0`-`9` then
lowercase `a`-`f`, from the character codes. -/
def digitCh (n : Nat) : Char :=
  if n < 10 then Char.ofNat ('0'.toNat + n)
  else if n < 16 then Char.ofNat ('a'.toNat + (n - 10))
  else '?'

/-- Decimal rendering of a number (fuel-based structural recursion). -/
def natDecAux : Nat → Nat → List Char
  | 0, _ => []
  | fuel + 1, n =>
    if n < 10 then [digitCh n]
    else natDecAux fuel (n / 10) ++ [digitCh (n % 10)]

/-- Decimal rendering of a number. -/
def natDec (n : Nat) : String :=
  String.mk (natDecAux (n + 1) n)

/-- Lowercase hexadecimal rendering, as Go prints IPv6 groups. -/
def natHexAux : Nat → Nat → List Char
  | 0, _ => []
  | fuel + 1, n =>
    if n < 16 then [digitCh n]
    else natHexAux fuel (n / 16) ++ [digitCh (n % 16)]

/-- Lowercase hexadecimal rendering of a group value. -/
def natHex (n : Nat) : String :=
  String.mk (natHexAux (n + 1) n)

/-- Concatenation with a separator (like Go `strings.Join`). -/
def joinSep (sep : String) : List String → String
  | [] => ""
  | [x] => x
  | x :: rest => x ++ sep ++ joinSep sep rest

/-- 16-bit groups of a 16-byte address. -/
def v6Groups : List Nat → List Nat
  | a :: b :: rest => (a * 256 + b) :: v6Groups rest
  | _ => []

/-- Length of the zero-group run starting at the head. -/
def zeroRunLen : List Nat → Nat
  | 0 :: rest => zeroRunLen rest + 1
  | _ => 0

/-- Leftmost longest run (length at least 2) of zero groups, as Go's
`IP.String` selects for `::` compression. -/
def bestZeroRunAux : List Nat → Nat → Option (Nat × Nat) → Option (Nat × Nat)
  | [], _, best => best
  | g :: rest, i, best =>
    let l := zeroRunLen (g :: rest)
    let better := 2 ≤ l && (match best with | none => true | some bl => bl.2 < l)
    bestZeroRunAux rest (i + 1) (if better then some (i, l) else best)

/-- Best `::` compression window for rendering. -/
def bestZeroRun (gs : List Nat) : Option (Nat × Nat) :=
  bestZeroRunAux gs 0 none

/-- RFC 5952 style rendering of IPv6 groups, as Go's `IP.String`. -/
def renderV6 (gs : List Nat) : String :=
  match bestZeroRun gs with
  | none => joinSep ":" (gs.map natHex)
  | some st =>
    joinSep ":" ((gs.take st.1).map natHex) ++ "::" ++
      joinSep ":" ((gs.drop (st.1 + st.2)).map natHex)

/-- Model of Go `IP.String`: dotted quad when `To4` succeeds, compressed
hex groups for other 16-byte addresses. -/
def ipString (ip : List Nat) : String :=
  match to4 ip with
  | some [a, b, c, d] =>
    natDec a ++ "." ++ natDec b ++ "." ++ natDec c ++ "." ++ natDec d
  | _ => if ip.length = 16 then renderV6 (v6Groups ip) else "?"

example : parseIP "10.0.0.5" = some (v4InV6Prefix ++ [10, 0, 0, 5]) := by decide
example : (parseIP "10.0.0.5").map ipString = some "10.0.0.5" := by decide
example : parseIP "not-an-ip" = none := by decide
example : (parseIP "2001:db8::1").map ipString = some "2001:db8::1" := by decide
example : (parseIP "::ffff:1.2.3.4").bind ipNetmask = some 32 := by decide
example : (parseIP "::1").bind ipNetmask = some 128 := by decide
example : (parseIP "::1").map ipString = some "::1" := by decide

/-! ## Kubernetes object model (the fields the source touches) -/

/-- A namespace object: its name and label map (`corev1.Namespace`). -/
structure NamespaceMeta where
  name : String
  labels : Labels
deriving DecidableEq

/-- A dependent object of a namespace — a pod or a persistent volume claim:
the namespace it lives in, its name and its label map. -/
structure Dependent where
  namespaceName : String
  name : String
  labels : Labels
deriving DecidableEq

/-- An owner reference (`metav1.OwnerReference` as produced by
`metav1.NewControllerRef`). -/
structure OwnerReference where
  apiVersion : String
  kind : String
  name : String
  controller : Bool
deriving DecidableEq

/-- `metav1.LabelSelectorRequirement`. -/
structure LabelSelectorRequirement where
  key : String
  operator : String
  values : List String
deriving DecidableEq

/-- `metav1.LabelSelector`. -/
structure LabelSelector where
  matchLabels : Labels := []
  matchExpressions : List LabelSelectorRequirement := []
deriving DecidableEq

/-- `networkingv1.IPBlock`. -/
structure IPBlock where
  cidr : String
deriving DecidableEq

/-- `networkingv1.NetworkPolicyPeer`. -/
structure NetworkPolicyPeer where
  podSelector : Option LabelSelector := none
  namespaceSelector : Option LabelSelector := none
  ipBlock : Option IPBlock := none
deriving DecidableEq

/-- `networkingv1.NetworkPolicyPort` (protocol and `intstr` port, always set
by the source). -/
structure NetworkPolicyPort where
  protocol : String
  port : Nat
deriving DecidableEq

/-- `networkingv1.PolicyType`. -/
inductive PolicyType
  | ingress
  | egress
deriving DecidableEq

/-- `networkingv1.NetworkPolicyIngressRule`. -/
structure NetworkPolicyIngressRule where
  From : List NetworkPolicyPeer := []
  Ports : List NetworkPolicyPort := []
deriving DecidableEq

/-- `networkingv1.NetworkPolicyEgressRule`. -/
structure NetworkPolicyEgressRule where
  To : List NetworkPolicyPeer := []
  Ports : List NetworkPolicyPort := []
deriving DecidableEq

/-- `networkingv1.NetworkPolicySpec`. -/
structure NetworkPolicySpec where
  podSelector : LabelSelector := {}
  policyTypes : List PolicyType := []
  ingress : List NetworkPolicyIngressRule := []
  egress : List NetworkPolicyEgressRule := []
deriving DecidableEq

/-- `networkingv1.NetworkPolicy` with the metadata fields the source sets. -/
structure NetworkPolicy where
  name : String
  namespaceName : String
  ownerReferences : List OwnerReference
  spec : NetworkPolicySpec
deriving DecidableEq

/-- `corev1.EndpointAddress` (only the IP field is used). -/
structure EndpointAddress where
  ip : String
deriving DecidableEq

/-- `corev1.EndpointPort` (only port and protocol are used). -/
structure EndpointPort where
  port : Nat
  protocol : String
deriving DecidableEq

/-- `corev1.EndpointSubset`. -/
structure EndpointSubset where
  addresses : List EndpointAddress := []
  ports : List EndpointPort := []
deriving DecidableEq

/-- `corev1.Endpoints`. -/
structure Endpoints where
  subsets : List EndpointSubset := []
deriving DecidableEq

/-! ## Label-propagation synchronizer (`cmd/finance.go`) -/

/-- An update call issued against the cluster API by the finance
synchronizer: the target's namespace, name and the label map written. -/
inductive FinCall
  | updatePod (namespaceName objectName : String) (labels : Labels)
  | updatePvc (namespaceName objectName : String) (labels : Labels)
deriving DecidableEq

/-- The synchronize closure of `financeCmd.Run` (`cmd/finance.go:61-113`).

Pod listing is namespace-scoped (`podLister.Pods(namespace.Name).List`);
PVC listing is `pvcLister.List`, i.e. cluster-wide, so `pvcs?` carries PVCs
of every namespace.  A listing argument of `none` models a lister error, on
which the source logs and returns `nil` immediately.  Update calls are
recorded in order; the source compares the dependent's
`finance.statcan.gc.ca/workload-id` label against the namespace's bare
`workload-id` label value and on a difference writes that value back under
the qualified key.  The returned `Option String` is the reconcile error
(always `none` on these paths; update-call failures are not modelled since
no claim depends on them). -/
def syncFinance (ns : NamespaceMeta) (pods? pvcs? : Option (List Dependent)) :
    List FinCall × Option String :=
  if hasKey ns.labels "control-plane" then ([], none)
  else if hasKey ns.labels "finance.statcan.gc.ca/workload-id" then
    match pods? with
    | none => ([], none)
    | some pods =>
      let nsVal := getVal ns.labels "workload-id"
      let podCalls := pods.filterMap (fun pod =>
        if getVal pod.labels "finance.statcan.gc.ca/workload-id" ≠ nsVal then
          some (FinCall.updatePod pod.namespaceName pod.name
            (setVal pod.labels "finance.statcan.gc.ca/workload-id" nsVal))
        else none)
      match pvcs? with
      | none => (podCalls, none)
      | some pvcs =>
        let pvcCalls := pvcs.filterMap (fun pvc =>
          if getVal pvc.labels "finance.statcan.gc.ca/workload-id" ≠ nsVal then
            some (FinCall.updatePvc pvc.namespaceName pvc.name
              (setVal pvc.labels "finance.statcan.gc.ca/workload-id" nsVal))
          else none)
        (podCalls ++ pvcCalls, none)
  else ([], none)

/-! ## Network-isolation synthesizer (`cmd/network.go`) -/

/-- A warning logged via `klog.Warningf` during synthesis. -/
inductive Warn
  | invalidBool (key value : String)
  | badIP (addr : String)
  | unknownIPKind (addr : String)
deriving DecidableEq

/-- `metav1.NewControllerRef(namespace, corev1.SchemeGroupVersion.WithKind("Namespace"))`. -/
def controllerRef (ns : NamespaceMeta) : OwnerReference :=
  { apiVersion := "v1", kind := "Namespace", name := ns.name, controller := true }

/-- The `isSystem` flag of `generateNetworkPolicies`: the purpose label is
present with value `"system"`. -/
def isSystemNs (ns : NamespaceMeta) : Bool :=
  match lookupL ns.labels "namespace.statcan.gc.ca/purpose" with
  | some v => v == "system"
  | none => false

/-- The `default-deny` policy (`cmd/network.go:133-145`). -/
def defaultDenyPolicy (ns : NamespaceMeta) : NetworkPolicy :=
  { name := "default-deny"
    namespaceName := ns.name
    ownerReferences := [controllerRef ns]
    spec :=
      { podSelector := {}
        policyTypes := [.ingress, .egress] } }

/-- The `allowSameNamespace` decision (`cmd/network.go:149-170`): default
true only for system namespaces without the label; a present label is
parsed as a boolean, an unparseable value is logged and leaves the initial
`false` in place.  On non-system namespaces an absent label reads as `""`,
which also fails to parse and is logged. -/
def allowSameNamespaceDecision (ns : NamespaceMeta) : Bool × List Warn :=
  let v? := lookupL ns.labels "network.statcan.gc.ca/allow-same-ns"
  let v := v?.getD ""
  if isSystemNs ns then
    if v?.isNone then (true, [])
    else
      match parseBool v with
      | none => (false, [Warn.invalidBool "network.statcan.gc.ca/allow-same-ns" v])
      | some b => (b, [])
  else
    match parseBool v with
    | none => (false, [Warn.invalidBool "network.statcan.gc.ca/allow-same-ns" v])
    | some b => (b, [])

/-- The `allow-same-namespace` policy (`cmd/network.go:173-203`). -/
def allowSameNamespacePolicy (ns : NamespaceMeta) : NetworkPolicy :=
  { name := "allow-same-namespace"
    namespaceName := ns.name
    ownerReferences := [controllerRef ns]
    spec :=
      { podSelector := {}
        policyTypes := [.ingress, .egress]
        ingress := [{ From := [{ podSelector := some {} }] }]
        egress := [{ To := [{ podSelector := some {} }] }] } }

/-- The `allow-ingress-controller` decision (`cmd/network.go:207-211`):
only a present label that parses true enables the policy; an unparseable
value is logged. -/
def ingressControllerDecision (ns : NamespaceMeta) : Bool × List Warn :=
  match lookupL ns.labels "network.statcan.gc.ca/allow-ingress-controller" with
  | none => (false, [])
  | some v =>
    match parseBool v with
    | none => (false, [Warn.invalidBool "network.statcan.gc.ca/allow-ingress-controller" v])
    | some b => (b, [])

/-- The `default-allow-ingress-controller` policy (`cmd/network.go:212-243`). -/
def ingressControllerPolicy (ns : NamespaceMeta) : NetworkPolicy :=
  { name := "default-allow-ingress-controller"
    namespaceName := ns.name
    ownerReferences := [controllerRef ns]
    spec :=
      { podSelector := {}
        policyTypes := [.ingress]
        ingress :=
          [{ From :=
              [{ namespaceSelector := some
                  { matchLabels :=
                      [("install.operator.istio.io/owner-name", "istio"),
                       ("namespace.statcan.gc.ca/purpose", "system")] }
                 podSelector := some { matchLabels := [("istio", "ingressgateway")] } }] }] } }

/-- The `default-allow-core-system` policy (`cmd/network.go:251-356`). -/
def coreSystemPolicy (ns : NamespaceMeta) : NetworkPolicy :=
  { name := "default-allow-core-system"
    namespaceName := ns.name
    ownerReferences := [controllerRef ns]
    spec :=
      { podSelector := {}
        policyTypes := [.ingress, .egress]
        ingress :=
          [{ From :=
              [{ namespaceSelector := some
                  { matchLabels :=
                      [("install.operator.istio.io/owner-name", "istio"),
                       ("namespace.statcan.gc.ca/purpose", "system")] }
                 podSelector := some
                  { matchExpressions :=
                      [{ key := "istio", operator := "In", values := ["pilot"] }] } }] }]
        egress :=
          [{ To :=
              [{ namespaceSelector := some
                  { matchLabels := [("kubernetes.io/cluster-service", "true")] }
                 podSelector := some { matchLabels := [("k8s-app", "kube-dns")] } }]
             Ports := [{ protocol := "UDP", port := 53 }, { protocol := "TCP", port := 53 }] },
           { To :=
              [{ namespaceSelector := some
                  { matchLabels :=
                      [("install.operator.istio.io/owner-name", "istio"),
                       ("namespace.statcan.gc.ca/purpose", "system")] }
                 podSelector := some
                  { matchExpressions :=
                      [{ key := "istio", operator := "In", values := ["pilot"] }] } }] },
           { To :=
              [{ namespaceSelector := some
                  { matchLabels :=
                      [("install.operator.istio.io/owner-name", "istio"),
                       ("namespace.statcan.gc.ca/purpose", "system")] }
                 podSelector := some
                  { matchExpressions :=
                      [{ key := "istio", operator := "In", values := ["mixer"] }] } }] }] } }

/-- The API-server egress policy before its egress rules are attached
(`cmd/network.go:360-396`): system namespaces get the unconditional
wildcard-selector variant, others the variant gated on the pod opt-in
label. -/
def apiServerBasePolicy (ns : NamespaceMeta) : NetworkPolicy :=
  if isSystemNs ns then
    { name := "allow-kube-apiserver"
      namespaceName := ns.name
      ownerReferences := [controllerRef ns]
      spec :=
        { podSelector := {}
          policyTypes := [.egress]
          egress := [] } }
  else
    { name := "optional-allow-kube-apiserver"
      namespaceName := ns.name
      ownerReferences := [controllerRef ns]
      spec :=
        { podSelector :=
            { matchLabels := [("network.statcan.gc.ca/allow-kube-apiserver", "true")] }
          policyTypes := [.egress]
          egress := [] } }

/-- A peer with only an IP block, as built for each parsed address. -/
def ipBlockPeer (c : String) : NetworkPolicyPeer :=
  { ipBlock := some { cidr := c } }

/-- The inner address loop of the endpoint-subset translation
(`cmd/network.go:404-427`): addresses that fail IP parsing are skipped
with a warning, parsed addresses become `/32` or `/128` CIDR peers. -/
def peersOfAddresses : List EndpointAddress → List NetworkPolicyPeer × List Warn
  | [] => ([], [])
  | a :: rest =>
    match parseIP a.ip with
    | none =>
      ((peersOfAddresses rest).1, Warn.badIP a.ip :: (peersOfAddresses rest).2)
    | some ip =>
      match ipNetmask ip with
      | none =>
        ((peersOfAddresses rest).1, Warn.unknownIPKind a.ip :: (peersOfAddresses rest).2)
      | some m =>
        (ipBlockPeer (ipString ip ++ "/" ++ natDec m) :: (peersOfAddresses rest).1,
          (peersOfAddresses rest).2)

/-- The port copy of the subset loop (`cmd/network.go:429-435`). -/
def portOfEndpointPort (p : EndpointPort) : NetworkPolicyPort :=
  { protocol := p.protocol, port := p.port }

/-- One egress rule per endpoint subset (`cmd/network.go:398-437`). -/
def ruleOfSubset (s : EndpointSubset) : NetworkPolicyEgressRule × List Warn :=
  ({ To := (peersOfAddresses s.addresses).1
     Ports := s.ports.map portOfEndpointPort },
   (peersOfAddresses s.addresses).2)

/-- The subset loop, appending one rule per subset in order. -/
def rulesOfSubsets : List EndpointSubset → List NetworkPolicyEgressRule × List Warn
  | [] => ([], [])
  | s :: rest =>
    ((ruleOfSubset s).1 :: (rulesOfSubsets rest).1,
      (ruleOfSubset s).2 ++ (rulesOfSubsets rest).2)

/-- The API-server egress policy with its rebuilt egress rule list. -/
def apiServerPolicyFull (ns : NamespaceMeta) (eps : Endpoints) : NetworkPolicy :=
  let base := apiServerBasePolicy ns
  { base with spec := { base.spec with egress := (rulesOfSubsets eps.subsets).1 } }

/-- `generateNetworkPolicies` (`cmd/network.go:119-443`): the desired policy
list for a namespace given the current API-server endpoints, plus the
warnings logged along the way. -/
def generateNetworkPolicies (ns : NamespaceMeta) (eps : Endpoints) :
    List NetworkPolicy × List Warn :=
  ([defaultDenyPolicy ns]
     ++ (if (allowSameNamespaceDecision ns).1 then [allowSameNamespacePolicy ns] else [])
     ++ (if (ingressControllerDecision ns).1 then [ingressControllerPolicy ns] else [])
     ++ [coreSystemPolicy ns, apiServerPolicyFull ns eps],
   (allowSameNamespaceDecision ns).2 ++ (ingressControllerDecision ns).2
     ++ (rulesOfSubsets eps.subsets).2)

/-! ## Converger and network synchronizer (`cmd/network.go:62-99`) -/

/-- A call issued against the cluster API by the converge loop. -/
inductive NetCall
  | create (p : NetworkPolicy)
  | update (p : NetworkPolicy)
deriving DecidableEq

/-- The policy name a call targets. -/
def netCallPolicyName : NetCall → String
  | .create p => p.name
  | .update p => p.name

/-- The cluster as the converge loop sees it: the lister lookup (a `none`
models a NotFound) and the outcomes of create and update calls, which
return the server's stored object or an error. -/
structure ConvergeEnv where
  lookup : String → String → Option NetworkPolicy
  create : NetworkPolicy → Except String NetworkPolicy
  update : NetworkPolicy → Except String NetworkPolicy

/-- The converge loop of `networkCmd.Run` (`cmd/network.go:77-96`): for
each desired policy, get the actual one by (namespace, name); NotFound
leads to a create; then, when the desired spec differs from the current
spec by deep comparison, the current object is updated with only its spec
replaced.  A failing create or update makes the function return that error
immediately, dropping the remaining policies. -/
def converge (env : ConvergeEnv) : List NetworkPolicy → List NetCall × Option String
  | [] => ([], none)
  | policy :: rest =>
    match env.lookup policy.namespaceName policy.name with
    | none =>
      match env.create policy with
      | .error e => ([NetCall.create policy], some e)
      | .ok created =>
        if created.spec = policy.spec then
          let t := converge env rest
          (NetCall.create policy :: t.1, t.2)
        else
          let upd := { created with spec := policy.spec }
          match env.update upd with
          | .error e => ([NetCall.create policy, NetCall.update upd], some e)
          | .ok _ =>
            let t := converge env rest
            (NetCall.create policy :: NetCall.update upd :: t.1, t.2)
    | some current =>
      if current.spec = policy.spec then converge env rest
      else
        let upd := { current with spec := policy.spec }
        match env.update upd with
        | .error e => ([NetCall.update upd], some e)
        | .ok _ =>
          let t := converge env rest
          (NetCall.update upd :: t.1, t.2)

/-- The synchronize closure of `networkCmd.Run` (`cmd/network.go:62-99`):
skip control-plane namespaces; a failure to get the API-server endpoints
(modelled by `none`) aborts the reconcile with an error; otherwise the
desired policies are generated and converged. -/
def networkSync (ns : NamespaceMeta) (eps? : Option Endpoints) (env : ConvergeEnv) :
    List NetCall × Option String :=
  if hasKey ns.labels "control-plane" then ([], none)
  else
    match eps? with
    | none => ([], some "failed to list endpoints of Kubernetes API server")
    | some eps => converge env (generateNetworkPolicies ns eps).1

/-- Modelled from the amended claim C2: the per-policy convergence step —
absent actual policy leads to a create; present with a differing spec leads
to one update replacing only the spec; equal specs lead to no call. -/
def stepSpec (env : ConvergeEnv) (p : NetworkPolicy) : List NetCall × Option String :=
  match env.lookup p.namespaceName p.name with
  | none =>
    match env.create p with
    | .error e => ([NetCall.create p], some e)
    | .ok _ => ([NetCall.create p], none)
  | some cur =>
    if cur.spec = p.spec then ([], none)
    else
      let upd := { cur with spec := p.spec }
      match env.update upd with
      | .error e => ([NetCall.update upd], some e)
      | .ok _ => ([NetCall.update upd], none)

/-- Modelled from the amended claim C2: process the batch policy by policy
and stop at the first failing step, returning its error; remaining policies
are not attempted. -/
def convergeSpec (env : ConvergeEnv) : List NetworkPolicy → List NetCall × Option String
  | [] => ([], none)
  | p :: rest =>
    match (stepSpec env p).2 with
    | some e => ((stepSpec env p).1, some e)
    | none =>
      ((stepSpec env p).1 ++ (convergeSpec env rest).1, (convergeSpec env rest).2)

/-! ## Concrete fixtures used by counterexamples and witnesses -/

/-- A namespace carrying only the qualified workload-id label. -/
def nsQualifiedOnly : NamespaceMeta :=
  { name := "alpha", labels := [("finance.statcan.gc.ca/workload-id", "acme-42")] }

/-- A pod of namespace `alpha` whose qualified workload-id label already
holds the namespace's qualified workload-id value. -/
def podMatching : Dependent :=
  { namespaceName := "alpha", name := "pod-1"
    labels := [("finance.statcan.gc.ca/workload-id", "acme-42")] }

/-- A namespace carrying the qualified workload-id label and the bare
`workload-id` label with the same value. -/
def nsBothKeys : NamespaceMeta :=
  { name := "alpha"
    labels := [("finance.statcan.gc.ca/workload-id", "acme-42"), ("workload-id", "acme-42")] }

/-- An unlabeled PVC living in a different namespace, `beta`. -/
def pvcOther : Dependent :=
  { namespaceName := "beta", name := "claim-b", labels := [] }

/-- An unlabeled PVC living in namespace `alpha` itself. -/
def pvcAlpha : Dependent :=
  { namespaceName := "alpha", name := "claim-a", labels := [] }

/-- Scenario A namespace: purpose `system`, no other labels. -/
def nsScenA : NamespaceMeta :=
  { name := "sys-ns", labels := [("namespace.statcan.gc.ca/purpose", "system")] }

/-- Scenario B namespace: no purpose label, `allow-same-ns=true`. -/
def nsScenB : NamespaceMeta :=
  { name := "user-ns", labels := [("network.statcan.gc.ca/allow-same-ns", "true")] }

/-- A system namespace whose `allow-same-ns` label is not a boolean. -/
def nsBadBool : NamespaceMeta :=
  { name := "sys-bad"
    labels := [("namespace.statcan.gc.ca/purpose", "system"),
               ("network.statcan.gc.ca/allow-same-ns", "notabool")] }

/-- An unlabeled namespace. -/
def nsPlain : NamespaceMeta :=
  { name := "user1", labels := [] }

/-- A control-plane namespace. -/
def nsControlPlane : NamespaceMeta :=
  { name := "kube-system", labels := [("control-plane", "true")] }

/-- Endpoints with no subsets. -/
def epsEmpty : Endpoints := { subsets := [] }

/-- The endpoint subset of spec scenario D: one good address, one
malformed address, port 443/TCP. -/
def subsetScenD : EndpointSubset :=
  { addresses := [{ ip := "10.0.0.5" }, { ip := "not-an-ip" }]
    ports := [{ port := 443, protocol := "TCP" }] }

/-- Endpoints holding only `subsetScenD`. -/
def epsScenD : Endpoints := { subsets := [subsetScenD] }

/-- An endpoint subset none of whose addresses parse as IP literals. -/
def subsetAllBad : EndpointSubset :=
  { addresses := [{ ip := "not-an-ip" }]
    ports := [{ port := 6443, protocol := "TCP" }] }

/-- Endpoints holding only `subsetAllBad`. -/
def epsAllBad : Endpoints := { subsets := [subsetAllBad] }

/-- An environment in which nothing exists yet, creating `default-deny`
fails with `boom`, and every other call succeeds echoing its argument. -/
def envCreateDenyFails : ConvergeEnv :=
  { lookup := fun _ _ => none
    create := fun p => if p.name = "default-deny" then .error "boom" else .ok p
    update := fun p => .ok p }

/-- An environment in which nothing exists and every call succeeds,
echoing its argument. -/
def envAllOk : ConvergeEnv :=
  { lookup := fun _ _ => none
    create := fun p => .ok p
    update := fun p => .ok p }

/-- The peer an endpoint address contributes, if any: the parsed address
rendered with its `/32` or `/128` netmask; `none` when the address is
skipped. -/
def peerOfAddr (a : EndpointAddress) : Option NetworkPolicyPeer :=
  match parseIP a.ip with
  | none => none
  | some ip =>
    match ipNetmask ip with
    | none => none
    | some m => some (ipBlockPeer (ipString ip ++ "/" ++ natDec m))

/-! ## Helper lemmas -/

theorem peersOfAddresses_fst (as : List EndpointAddress) :
    (peersOfAddresses as).1 = as.filterMap peerOfAddr := by
  induction as with
  | nil => rfl
  | cons a rest ih =>
    cases h : parseIP a.ip with
    | none => simp [peersOfAddresses, peerOfAddr, h, ih]
    | some ip =>
      cases hm : ipNetmask ip with
      | none => simp [peersOfAddresses, peerOfAddr, h, hm, ih]
      | some m => simp [peersOfAddresses, peerOfAddr, h, hm, ih]

theorem peersOfAddresses_badIP_mem (as : List EndpointAddress) (a : EndpointAddress)
    (ha : a ∈ as) (hp : parseIP a.ip = none) :
    Warn.badIP a.ip ∈ (peersOfAddresses as).2 := by
  induction as with
  | nil => cases ha
  | cons b rest ih =>
    rcases List.mem_cons.mp ha with rfl | hmem
    · simp [peersOfAddresses, hp]
    · cases h : parseIP b.ip with
      | none => simp [peersOfAddresses, h, ih hmem]
      | some ip =>
        cases hm : ipNetmask ip with
        | none => simp [peersOfAddresses, h, hm, ih hmem]
        | some m => simp [peersOfAddresses, h, hm, ih hmem]

theorem rulesOfSubsets_length (ss : List EndpointSubset) :
    (rulesOfSubsets ss).1.length = ss.length := by
  induction ss with
  | nil => rfl
  | cons s rest ih => simp [rulesOfSubsets, ih]

theorem rulesOfSubsets_getElem? (ss : List EndpointSubset) (i : Nat) :
    (rulesOfSubsets ss).1[i]? = (ss[i]?).map (fun s => (ruleOfSubset s).1) := by
  induction ss generalizing i with
  | nil => cases i <;> rfl
  | cons s rest ih => cases i <;> simp [rulesOfSubsets, ih]

theorem rulesOfSubsets_warn_mem (ss : List EndpointSubset) (s : EndpointSubset)
    (hs : s ∈ ss) (w : Warn) (hw : w ∈ (ruleOfSubset s).2) :
    w ∈ (rulesOfSubsets ss).2 := by
  induction ss with
  | nil => cases hs
  | cons t rest ih =>
    rcases List.mem_cons.mp hs with rfl | hmem
    · exact List.mem_append_left _ hw
    · exact List.mem_append_right _ (ih hmem)

theorem generate_getLast (ns : NamespaceMeta) (eps : Endpoints) :
    (generateNetworkPolicies ns eps).1.getLast? = some (apiServerPolicyFull ns eps) := by
  unfold generateNetworkPolicies
  by_cases h1 : (allowSameNamespaceDecision ns).1 <;>
    by_cases h2 : (ingressControllerDecision ns).1 <;>
      simp [h1, h2, List.getLast?]

theorem apiServerPolicyFull_meta (ns : NamespaceMeta) (eps : Endpoints) :
    (apiServerPolicyFull ns eps).namespaceName = ns.name ∧
    (apiServerPolicyFull ns eps).ownerReferences = [controllerRef ns] := by
  by_cases h : isSystemNs ns <;> simp [apiServerPolicyFull, apiServerBasePolicy, h]

theorem apiServerPolicyFull_egress (ns : NamespaceMeta) (eps : Endpoints) :
    (apiServerPolicyFull ns eps).spec.egress = (rulesOfSubsets eps.subsets).1 := by
  by_cases h : isSystemNs ns <;> simp [apiServerPolicyFull, apiServerBasePolicy, h]

theorem allowSameNamespaceDecision_true_iff (ns : NamespaceMeta) :
    (allowSameNamespaceDecision ns).1 = true ↔
      (isSystemNs ns = true ∧ lookupL ns.labels "network.statcan.gc.ca/allow-same-ns" = none) ∨
      (∃ v, lookupL ns.labels "network.statcan.gc.ca/allow-same-ns" = some v ∧
        parseBool v = some true) := by
  unfold allowSameNamespaceDecision
  cases hv : lookupL ns.labels "network.statcan.gc.ca/allow-same-ns" with
  | none => by_cases hs : isSystemNs ns <;> simp [hs, hv, parseBool]
  | some v =>
    by_cases hs : isSystemNs ns <;> cases hb : parseBool v <;> simp [hs, hv, hb]

theorem allowSameNamespaceDecision_warn (ns : NamespaceMeta) (v : String)
    (hv : lookupL ns.labels "network.statcan.gc.ca/allow-same-ns" = some v)
    (hb : parseBool v = none) :
    Warn.invalidBool "network.statcan.gc.ca/allow-same-ns" v ∈
      (allowSameNamespaceDecision ns).2 := by
  unfold allowSameNamespaceDecision
  by_cases hs : isSystemNs ns <;> simp [hs, hv, hb]

theorem allowSameNs_mem_names_iff (ns : NamespaceMeta) (eps : Endpoints) :
    ("allow-same-namespace" ∈ (generateNetworkPolicies ns eps).1.map NetworkPolicy.name) ↔
      (allowSameNamespaceDecision ns).1 = true := by
  unfold generateNetworkPolicies
  by_cases h1 : (allowSameNamespaceDecision ns).1 <;>
    by_cases h2 : (ingressControllerDecision ns).1 <;>
      by_cases h3 : isSystemNs ns <;>
        simp [h1, h2, defaultDenyPolicy, allowSameNamespacePolicy, ingressControllerPolicy,
          coreSystemPolicy, apiServerPolicyFull, apiServerBasePolicy, h3]

theorem converge_eq_convergeSpec (env : ConvergeEnv)
    (hc : ∀ p q, env.create p = Except.ok q → q = p) :
    ∀ ps, converge env ps = convergeSpec env ps := by
  intro ps
  induction ps with
  | nil => rfl
  | cons p rest ih =>
    cases hl : env.lookup p.namespaceName p.name with
    | none =>
      cases hcr : env.create p with
      | error e => simp [converge, convergeSpec, stepSpec, hl, hcr]
      | ok created =>
        have hcp : created = p := hc p created hcr
        subst hcp
        simp [converge, convergeSpec, stepSpec, hl, hcr, ih]
    | some cur =>
      by_cases hs : cur.spec = p.spec
      · simp [converge, convergeSpec, stepSpec, hl, hs, ih]
      · cases hu : env.update { cur with spec := p.spec } with
        | error e => simp [converge, convergeSpec, stepSpec, hl, hs, hu]
        | ok q => simp [converge, convergeSpec, stepSpec, hl, hs, hu, ih]

/-! ## Claim theorems -/

/-- C1 (code bug): the namespace `alpha` carries the workload-id label
`finance.statcan.gc.ca/workload-id=acme-42` and its pod already carries the
same label with the same value, so the claim demands that no update call be
issued — yet the synchronizer issues one update call that overwrites the
pod's workload-id label with the empty string, because the source reads
the propagated value from the distinct bare key `workload-id` while gating
on the qualified key. -/
theorem finance_value_key_mismatch :
    hasKey nsQualifiedOnly.labels "finance.statcan.gc.ca/workload-id" = true ∧
    getVal podMatching.labels "finance.statcan.gc.ca/workload-id" =
      getVal nsQualifiedOnly.labels "finance.statcan.gc.ca/workload-id" ∧
    syncFinance nsQualifiedOnly (some [podMatching]) (some []) =
      ([FinCall.updatePod "alpha" "pod-1" [("finance.statcan.gc.ca/workload-id", "")]],
        none) := by
  decide

/-- C3 (code bug): the storage-claim dependents are listed cluster-wide,
not namespace-scoped: reconciling namespace `alpha` issues an update call
for a persistent volume claim that lives in namespace `beta`. -/
theorem pvc_listing_cluster_wide :
    pvcOther.namespaceName ≠ nsBothKeys.name ∧
    syncFinance nsBothKeys (some []) (some [pvcOther]) =
      ([FinCall.updatePvc "beta" "claim-b" [("finance.statcan.gc.ca/workload-id", "acme-42")]],
        none) := by
  decide

/-- C4 counterexample: when the pod listing fails, the synchronizer does
not treat the listing as empty and continue — it returns success
immediately, skipping the PVC section entirely: with a PVC that needs an
update present, the failing-pod-list pass issues no call at all, while the
same pass with an empty pod list issues the PVC update. -/
theorem listFailure_not_treated_as_empty_cx :
    syncFinance nsBothKeys none (some [pvcAlpha]) = ([], none) ∧
    syncFinance nsBothKeys (some []) (some [pvcAlpha]) =
      ([FinCall.updatePvc "alpha" "claim-a" [("finance.statcan.gc.ca/workload-id", "acme-42")]],
        none) := by
  decide

/-- C4 (amended): a failed pod listing is logged and makes the label
synchronizer return success immediately, skipping the rest of the pass; a
failed PVC listing likewise ends the pass with the pod updates already
computed standing (equivalent to an empty PVC result there); in the network
synchronizer a failure to fetch the API-server endpoints aborts the
reconcile with an error rather than continuing. -/
theorem listFailure_behavior (ns : NamespaceMeta) (pods : List Dependent)
    (pvcs? : Option (List Dependent)) (env : ConvergeEnv)
    (h : hasKey ns.labels "control-plane" = false) :
    syncFinance ns none pvcs? = ([], none) ∧
    syncFinance ns (some pods) none = syncFinance ns (some pods) (some []) ∧
    networkSync ns none env =
      ([], some "failed to list endpoints of Kubernetes API server") := by
  refine ⟨?_, ?_, ?_⟩
  · by_cases h1 : hasKey ns.labels "control-plane" <;>
      by_cases h2 : hasKey ns.labels "finance.statcan.gc.ca/workload-id" <;>
        simp [syncFinance, h1, h2]
  · by_cases h1 : hasKey ns.labels "control-plane" <;>
      by_cases h2 : hasKey ns.labels "finance.statcan.gc.ca/workload-id" <;>
        simp [syncFinance, h1, h2]
  · simp [networkSync, h]

/-- C4 witness: the amended behavior at a concrete namespace, pod list and
PVC list. -/
theorem listFailure_behavior_witness :
    hasKey nsBothKeys.labels "control-plane" = false ∧
    syncFinance nsBothKeys none (some [pvcAlpha]) = ([], none) ∧
    syncFinance nsBothKeys (some [podMatching]) none =
      syncFinance nsBothKeys (some [podMatching]) (some []) ∧
    networkSync nsBothKeys none envAllOk =
      ([], some "failed to list endpoints of Kubernetes API server") :=
  ⟨by decide,
    (listFailure_behavior nsBothKeys [podMatching] (some [pvcAlpha]) envAllOk (by decide)).1,
    (listFailure_behavior nsBothKeys [podMatching] (some [pvcAlpha]) envAllOk (by decide)).2.1,
    (listFailure_behavior nsBothKeys [podMatching] (some [pvcAlpha]) envAllOk (by decide)).2.2⟩

/-- C2 counterexample: with no existing policies and a cluster that fails
the create of `default-deny`, the desired batch for an unlabeled namespace
is three policies, the second of which is also absent — yet the reconcile
returns the create error after issuing only the one failing call: the
remaining policies of the batch are not attempted. -/
theorem converge_aborts_batch_cx :
    ((generateNetworkPolicies nsPlain epsEmpty).1.map NetworkPolicy.name =
      ["default-deny", "default-allow-core-system", "optional-allow-kube-apiserver"]) ∧
    envCreateDenyFails.lookup "user1" "default-allow-core-system" = none ∧
    (networkSync nsPlain (some epsEmpty) envCreateDenyFails).2 = some "boom" ∧
    ((networkSync nsPlain (some epsEmpty) envCreateDenyFails).1.map netCallPolicyName) =
      ["default-deny"] :=
  ⟨by decide, rfl, rfl, rfl⟩

/-- C2 (amended): over a cluster whose create calls echo the stored
object, the converge loop behaves exactly as the per-policy specification
composed with stop-at-first-error: absent actual policy leads to a create,
a differing spec leads to one update replacing only the spec, an equal
spec leads to no call, and the first create/update failure is returned
immediately with the remaining policies of the batch not attempted. -/
theorem converge_matches_amended_spec (env : ConvergeEnv)
    (hc : ∀ p q, env.create p = Except.ok q → q = p) (ps : List NetworkPolicy) :
    converge env ps = convergeSpec env ps :=
  converge_eq_convergeSpec env hc ps

/-- C2 witness: the equivalence at a concrete environment and batch. -/
theorem converge_matches_amended_spec_witness :
    converge envAllOk (generateNetworkPolicies nsPlain epsEmpty).1 =
      convergeSpec envAllOk (generateNetworkPolicies nsPlain epsEmpty).1 :=
  converge_matches_amended_spec envAllOk
    (fun p q h => by simpa [envAllOk] using h.symm)
    (generateNetworkPolicies nsPlain epsEmpty).1

/-- C5 counterexample: a system namespace whose `allow-same-ns` label does
not parse as a boolean does not fall back to the system default (enabled):
the `allow-same-namespace` policy is not emitted. -/
theorem allowSameNs_fallback_cx :
    isSystemNs nsBadBool = true ∧
    lookupL nsBadBool.labels "network.statcan.gc.ca/allow-same-ns" = some "notabool" ∧
    parseBool "notabool" = none ∧
    "allow-same-namespace" ∉ (generateNetworkPolicies nsBadBool epsEmpty).1.map
      NetworkPolicy.name := by
  decide

/-- C5 (amended): `allow-same-namespace` is emitted if and only if the
namespace purpose is system and no allow-same-ns label is present, or the
label is present and parses as boolean true; an unparseable label value is
logged as a warning and treated as boolean false (the policy is not
emitted), not as absent. -/
theorem allowSameNs_emission (ns : NamespaceMeta) (eps : Endpoints) :
    (("allow-same-namespace" ∈ (generateNetworkPolicies ns eps).1.map NetworkPolicy.name) ↔
      (isSystemNs ns = true ∧ lookupL ns.labels "network.statcan.gc.ca/allow-same-ns" = none) ∨
      (∃ v, lookupL ns.labels "network.statcan.gc.ca/allow-same-ns" = some v ∧
        parseBool v = some true)) ∧
    (∀ v, lookupL ns.labels "network.statcan.gc.ca/allow-same-ns" = some v →
      parseBool v = none →
      Warn.invalidBool "network.statcan.gc.ca/allow-same-ns" v ∈
        (generateNetworkPolicies ns eps).2) := by
  constructor
  · rw [allowSameNs_mem_names_iff]
    exact allowSameNamespaceDecision_true_iff ns
  · intro v hv hb
    have hmem := allowSameNamespaceDecision_warn ns v hv hb
    unfold generateNetworkPolicies
    exact List.mem_append_left _ (List.mem_append_left _ hmem)

/-- C5 witness: the amended behavior at concrete namespaces — emission on
scenario B, the warning on the unparseable system namespace. -/
theorem allowSameNs_emission_witness :
    ("allow-same-namespace" ∈ (generateNetworkPolicies nsScenB epsEmpty).1.map
      NetworkPolicy.name) ∧
    Warn.invalidBool "network.statcan.gc.ca/allow-same-ns" "notabool" ∈
      (generateNetworkPolicies nsBadBool epsEmpty).2 :=
  ⟨(allowSameNs_emission nsScenB epsEmpty).1.mpr
      (Or.inr ⟨"true", by decide, by decide⟩),
    (allowSameNs_emission nsBadBool epsEmpty).2 "notabool" (by decide) (by decide)⟩

/-- C6: scenario A (purpose system, no allow-same-ns, no ingress-controller
label) yields exactly the four policies default-deny, allow-same-namespace,
default-allow-core-system and the unconditional wildcard-selector
API-server egress policy; scenario B (no purpose, allow-same-ns=true) yields
exactly default-deny, allow-same-namespace, default-allow-core-system and
the API-server egress policy gated on the pod opt-in label — for every
endpoint state. -/
theorem scenario_policy_counts (eps : Endpoints) :
    ((generateNetworkPolicies nsScenA eps).1.map NetworkPolicy.name =
      ["default-deny", "allow-same-namespace", "default-allow-core-system",
        "allow-kube-apiserver"]) ∧
    ((generateNetworkPolicies nsScenA eps).1.getLast?.map (fun p => p.spec.podSelector) =
      some {}) ∧
    ((generateNetworkPolicies nsScenB eps).1.map NetworkPolicy.name =
      ["default-deny", "allow-same-namespace", "default-allow-core-system",
        "optional-allow-kube-apiserver"]) ∧
    ((generateNetworkPolicies nsScenB eps).1.getLast?.map (fun p => p.spec.podSelector) =
      some { matchLabels := [("network.statcan.gc.ca/allow-kube-apiserver", "true")] }) :=
  ⟨rfl, rfl, rfl, rfl⟩

theorem mem_generate (ns : NamespaceMeta) (eps : Endpoints) (p : NetworkPolicy) :
    p ∈ (generateNetworkPolicies ns eps).1 ↔
      p = defaultDenyPolicy ns ∨
      ((allowSameNamespaceDecision ns).1 = true ∧ p = allowSameNamespacePolicy ns) ∨
      ((ingressControllerDecision ns).1 = true ∧ p = ingressControllerPolicy ns) ∨
      p = coreSystemPolicy ns ∨
      p = apiServerPolicyFull ns eps := by
  unfold generateNetworkPolicies
  by_cases h1 : (allowSameNamespaceDecision ns).1 <;>
    by_cases h2 : (ingressControllerDecision ns).1 <;>
      simp [h1, h2]

/-- C7: for every namespace and endpoint state, the API-server egress
policy (the last one emitted) has exactly one egress rule per endpoint
subset; the rule of subset `i` has one `/32` or `/128` CIDR peer per
address of that subset that parses as an IP literal, in order, with the
unparseable addresses skipped (each leaving a logged warning, without
failing synthesis), and the subset's ports and protocols copied verbatim
into the rule's port list. -/
theorem apiserver_egress_structure (ns : NamespaceMeta) (eps : Endpoints)
    (ap : NetworkPolicy)
    (hap : (generateNetworkPolicies ns eps).1.getLast? = some ap)
    (i : Nat) (s : EndpointSubset) (hs : eps.subsets[i]? = some s) :
    ap.spec.egress.length = eps.subsets.length ∧
    ∃ r, ap.spec.egress[i]? = some r ∧
      r.To = s.addresses.filterMap peerOfAddr ∧
      r.Ports = s.ports.map portOfEndpointPort ∧
      ∀ a ∈ s.addresses, parseIP a.ip = none →
        Warn.badIP a.ip ∈ (generateNetworkPolicies ns eps).2 := by
  have hap' : ap = apiServerPolicyFull ns eps := by
    have hg := generate_getLast ns eps
    rw [hap] at hg
    exact Option.some.inj hg
  subst hap'
  rw [apiServerPolicyFull_egress]
  refine ⟨by rw [rulesOfSubsets_length], (ruleOfSubset s).1, ?_, ?_, rfl, ?_⟩
  · rw [rulesOfSubsets_getElem?, hs]
    rfl
  · simp [ruleOfSubset, peersOfAddresses_fst]
  · intro a ha hp
    have hsub : s ∈ eps.subsets := List.mem_iff_getElem?.mpr ⟨i, hs⟩
    have hw : Warn.badIP a.ip ∈ (ruleOfSubset s).2 := by
      simpa [ruleOfSubset] using peersOfAddresses_badIP_mem s.addresses a ha hp
    have hmem := rulesOfSubsets_warn_mem eps.subsets s hsub _ hw
    unfold generateNetworkPolicies
    exact List.mem_append_right _ hmem

/-- C7 witness: spec scenario D — subset with address `10.0.0.5`, a
malformed address and port 443/TCP yields one rule with the single peer
`10.0.0.5/32` and that port, and the malformed address leaves a warning. -/
theorem apiserver_egress_structure_witness :
    ((apiServerPolicyFull nsScenA epsScenD).spec.egress.length =
      epsScenD.subsets.length ∧
    ∃ r, (apiServerPolicyFull nsScenA epsScenD).spec.egress[0]? = some r ∧
      r.To = subsetScenD.addresses.filterMap peerOfAddr ∧
      r.Ports = subsetScenD.ports.map portOfEndpointPort ∧
      ∀ a ∈ subsetScenD.addresses, parseIP a.ip = none →
        Warn.badIP a.ip ∈ (generateNetworkPolicies nsScenA epsScenD).2) ∧
    subsetScenD.addresses.filterMap peerOfAddr = [ipBlockPeer "10.0.0.5/32"] :=
  ⟨apiserver_egress_structure nsScenA epsScenD
      (apiServerPolicyFull nsScenA epsScenD) (by rfl) 0 subsetScenD (by rfl),
    by decide⟩

/-- C8: a namespace carrying the control-plane marker label makes both
synchronizers return success without issuing any call: the result is
`([], none)` for every pod, PVC, endpoint and cluster state, so nothing is
read from or written to the cluster. -/
theorem control_plane_skip (ns : NamespaceMeta) (pods? pvcs? : Option (List Dependent))
    (eps? : Option Endpoints) (env : ConvergeEnv)
    (h : hasKey ns.labels "control-plane" = true) :
    syncFinance ns pods? pvcs? = ([], none) ∧ networkSync ns eps? env = ([], none) := by
  constructor <;> simp [syncFinance, networkSync, h]

/-- C8 witness: the skip at a concrete control-plane namespace. -/
theorem control_plane_skip_witness :
    hasKey nsControlPlane.labels "control-plane" = true ∧
    syncFinance nsControlPlane none none = ([], none) ∧
    networkSync nsControlPlane none envAllOk = ([], none) :=
  ⟨by decide,
    (control_plane_skip nsControlPlane none none none envAllOk (by decide)).1,
    (control_plane_skip nsControlPlane none none none envAllOk (by decide)).2⟩

/-- C9: every policy emitted by the network-isolation synthesizer has its
namespace field equal to the reconciled namespace's name and carries the
controller owner reference to that namespace. -/
theorem policies_owned_by_namespace (ns : NamespaceMeta) (eps : Endpoints)
    (p : NetworkPolicy) (hp : p ∈ (generateNetworkPolicies ns eps).1) :
    p.namespaceName = ns.name ∧ p.ownerReferences = [controllerRef ns] := by
  rcases (mem_generate ns eps p).mp hp with rfl | ⟨_, rfl⟩ | ⟨_, rfl⟩ | rfl | rfl
  · exact ⟨rfl, rfl⟩
  · exact ⟨rfl, rfl⟩
  · exact ⟨rfl, rfl⟩
  · exact ⟨rfl, rfl⟩
  · exact apiServerPolicyFull_meta ns eps

/-- C9 witness: ownership of a concrete emitted policy. -/
theorem policies_owned_by_namespace_witness :
    defaultDenyPolicy nsScenA ∈ (generateNetworkPolicies nsScenA epsEmpty).1 ∧
    (defaultDenyPolicy nsScenA).namespaceName = nsScenA.name ∧
    (defaultDenyPolicy nsScenA).ownerReferences = [controllerRef nsScenA] :=
  ⟨by decide,
    (policies_owned_by_namespace nsScenA epsEmpty (defaultDenyPolicy nsScenA) (by decide)).1,
    (policies_owned_by_namespace nsScenA epsEmpty (defaultDenyPolicy nsScenA) (by decide)).2⟩

/-- C10: an endpoint subset none of whose addresses parse as IP literals
(including one with no addresses) still contributes its egress rule to the
API-server policy: the rule is present at the subset's position with an
empty peer list and the subset's ports copied. -/
theorem empty_subset_rule_kept (ns : NamespaceMeta) (eps : Endpoints) (ap : NetworkPolicy)
    (hap : (generateNetworkPolicies ns eps).1.getLast? = some ap)
    (i : Nat) (s : EndpointSubset) (hs : eps.subsets[i]? = some s)
    (hbad : ∀ a ∈ s.addresses, parseIP a.ip = none) :
    ap.spec.egress.length = eps.subsets.length ∧
    ∃ r, ap.spec.egress[i]? = some r ∧ r.To = [] ∧
      r.Ports = s.ports.map portOfEndpointPort := by
  have hap' : ap = apiServerPolicyFull ns eps := by
    have hg := generate_getLast ns eps
    rw [hap] at hg
    exact Option.some.inj hg
  subst hap'
  rw [apiServerPolicyFull_egress]
  refine ⟨by rw [rulesOfSubsets_length], (ruleOfSubset s).1, ?_, ?_, rfl⟩
  · rw [rulesOfSubsets_getElem?, hs]
    rfl
  · have hnil : s.addresses.filterMap peerOfAddr = [] := by
      rw [List.filterMap_eq_nil_iff]
      intro a ha
      simp [peerOfAddr, hbad a ha]
    simp [ruleOfSubset, peersOfAddresses_fst, hnil]

/-- C10 witness: a subset with only a malformed address and port 6443/TCP
still yields its rule, with no peers and that port. -/
theorem empty_subset_rule_kept_witness :
    (apiServerPolicyFull nsScenB epsAllBad).spec.egress.length =
      epsAllBad.subsets.length ∧
    ∃ r, (apiServerPolicyFull nsScenB epsAllBad).spec.egress[0]? = some r ∧
      r.To = [] ∧ r.Ports = subsetAllBad.ports.map portOfEndpointPort :=
  empty_subset_rule_kept nsScenB epsAllBad (apiServerPolicyFull nsScenB epsAllBad)
    (by rfl) 0 subsetAllBad (by rfl) (by decide)
